import Mathlib

/-!
Verification of the workflow state machine of `src/core/essay_writer.py`
(class `EnhancedEssayWriter`).

Modelling conventions:
* `AgentState` embeds the `AgentState` TypedDict.  Python integers are `Int`,
  optional fields are `Option`.
* Each LangGraph node function returns a partial update dictionary; we embed
  this as `NodeUpdate`, a record of `Option` fields (a `some` field is a key
  present in the returned dict).  `applyUpdate` embeds the engine's channel
  merge: every present key overwrites its channel, except `count`, whose
  channel is declared `Annotated[int, operator.add]` and therefore adds.
* Calls to the LLM and to the search client are external effects; an `Env`
  record supplies their responses (the search client is a function from a
  query string to the list of result contents, matching
  `[r["content"] for r in tavily.search(q)["results"]]`).
* The graph wiring of `_build_graph_structure` becomes `entryPoint` /
  `nextNode`; the conditional edge is `should_continue`, returning
  `none` for `END`.
* The compiled graph's execution (`graph.invoke`) is the fuel-indexed loop
  `runUntil`: run the pending node, stop when there is no next node or when
  the node just executed is in the `interrupt_after` list, as configured by
  `_build_graph` (whose name-validation check is embedded in `build_graph`).
* `update_state` embeds `EnhancedEssayWriter.update_state`: the method sets
  `values[key] = value` on the checkpoint's full values dict and then hands
  the whole dict back to the engine, which applies it through the channel
  reducers (so the additive `count` channel receives its own current value
  again).
* `run_step` embeds the try/except boundary of
  `EnhancedEssayWriter.run_step`: the engine outcome (either the pair of
  the invoke response and the checkpoint state, or an exception message) is
  its input, and it builds the result dict of the Python method.
-/

/-- The five graph nodes added in `_build_graph_structure`. -/
inductive Node
  | planner
  | research_plan
  | generate
  | reflect
  | research_critique
deriving DecidableEq, Repr

/-- The string name each node is registered under in `builder.add_node`. -/
def nodeName : Node → String
  | .planner => "planner"
  | .research_plan => "research_plan"
  | .generate => "generate"
  | .reflect => "reflect"
  | .research_critique => "research_critique"

/-- `self.builder.nodes.keys()` after `_build_graph_structure`. -/
def validNodeNames : List String :=
  ["planner", "research_plan", "generate", "reflect", "research_critique"]

/-- The `AgentState` TypedDict of `src/core/essay_writer.py`. -/
structure AgentState where
  task : String
  lnode : String
  plan : String
  draft : String
  critique : String
  content : List String
  queries : List String
  revision_number : Int
  max_revisions : Int
  count : Int
  user_id : Option Int
  essay_id : Option Int
  session_id : Option String
deriving DecidableEq, Repr

/-- A partial update dictionary returned by a node function: a `some` field
is a key present in the returned dict. -/
structure NodeUpdate where
  task : Option String := none
  lnode : Option String := none
  plan : Option String := none
  draft : Option String := none
  critique : Option String := none
  content : Option (List String) := none
  queries : Option (List String) := none
  revision_number : Option Int := none
  max_revisions : Option Int := none
  count : Option Int := none
  user_id : Option (Option Int) := none
  essay_id : Option (Option Int) := none
  session_id : Option (Option String) := none

/-- The engine's channel merge of a node's returned dict into the state:
every present key overwrites its channel, except `count`, which is an
`operator.add` reducer channel and adds the returned value. -/
def applyUpdate (s : AgentState) (u : NodeUpdate) : AgentState :=
  { task := u.task.getD s.task
    lnode := u.lnode.getD s.lnode
    plan := u.plan.getD s.plan
    draft := u.draft.getD s.draft
    critique := u.critique.getD s.critique
    content := u.content.getD s.content
    queries := u.queries.getD s.queries
    revision_number := u.revision_number.getD s.revision_number
    max_revisions := u.max_revisions.getD s.max_revisions
    count := s.count + u.count.getD 0
    user_id := u.user_id.getD s.user_id
    essay_id := u.essay_id.getD s.essay_id
    session_id := u.session_id.getD s.session_id }

/-- External effects consumed by the node functions during one step: the
three chat-model completions, the two structured-output query lists, and
the search client mapping a query to the contents of its results. -/
structure Env where
  planResponse : String
  writerResponse : String
  reflectionResponse : String
  planQueries : List String
  critiqueQueries : List String
  search : String → List String

/-- `plan_node`: returns `{"plan": response.content, "lnode": "planner",
"count": 1}`. -/
def plan_node (env : Env) (_s : AgentState) : NodeUpdate :=
  { plan := some env.planResponse
    lnode := some "planner"
    count := some 1 }

/-- `research_plan_node`: generates queries, appends every search result's
content to `state["content"]`, and returns
`{"content": content, "queries": queries.queries, "lnode": "research_plan",
"count": 1}`. -/
def research_plan_node (env : Env) (s : AgentState) : NodeUpdate :=
  { content := some (s.content ++ (env.planQueries.map env.search).flatten)
    queries := some env.planQueries
    lnode := some "research_plan"
    count := some 1 }

/-- `generation_node`: returns `{"draft": response.content,
"revision_number": state.get("revision_number", 1) + 1, "lnode": "generate",
"count": 1}` (the state always carries `revision_number`, set to 0 at
session creation, so the `.get` default never fires). -/
def generation_node (env : Env) (s : AgentState) : NodeUpdate :=
  { draft := some env.writerResponse
    revision_number := some (s.revision_number + 1)
    lnode := some "generate"
    count := some 1 }

/-- `reflection_node`: returns `{"critique": response.content,
"lnode": "reflect", "count": 1}`. -/
def reflection_node (env : Env) (_s : AgentState) : NodeUpdate :=
  { critique := some env.reflectionResponse
    lnode := some "reflect"
    count := some 1 }

/-- `research_critique_node`: generates queries, appends every search
result's content to `state["content"]`, and returns
`{"content": content, "lnode": "research_critique", "count": 1}` — note it
does not return a `"queries"` key. -/
def research_critique_node (env : Env) (s : AgentState) : NodeUpdate :=
  { content := some (s.content ++ (env.critiqueQueries.map env.search).flatten)
    lnode := some "research_critique"
    count := some 1 }

/-- `should_continue`: `END` (here `none`) when
`state["revision_number"] > state["max_revisions"]`, else `"reflect"`. -/
def should_continue (s : AgentState) : Option Node :=
  if s.revision_number > s.max_revisions then none else some Node.reflect

/-- Run one node function and merge its returned dict into the state. -/
def runNode (env : Env) (n : Node) (s : AgentState) : AgentState :=
  applyUpdate s
    (match n with
      | .planner => plan_node env s
      | .research_plan => research_plan_node env s
      | .generate => generation_node env s
      | .reflect => reflection_node env s
      | .research_critique => research_critique_node env s)

/-- The edges of `_build_graph_structure`: `planner → research_plan`,
`research_plan → generate`, `generate → should_continue(state)` (the
conditional edge, evaluated on the state after the node ran), `reflect →
research_critique`, `research_critique → generate`. `none` is `END`. -/
def nextNode (n : Node) (s : AgentState) : Option Node :=
  match n with
  | .planner => some Node.research_plan
  | .research_plan => some Node.generate
  | .generate => should_continue s
  | .reflect => some Node.research_critique
  | .research_critique => some Node.generate

/-- `builder.set_entry_point("planner")`. -/
def entryPoint : Node := Node.planner

/-- An execution configuration of the engine: the checkpointed state values
together with the pending next node (`none` when the run has ended). -/
abbrev Config := AgentState × Option Node

/-- One engine super-step: execute the pending node and compute the next
node from the updated state; a configuration with no pending node is
final. -/
def stepOnce (env : Env) : Config → Config
  | (s, none) => (s, none)
  | (s, some n) =>
    let s' := runNode env n s
    (s', nextNode n s')

/-- `graph.invoke` on the compiled graph: run pending nodes until the run
ends or until the node just executed is in the configured `interrupt_after`
list (`none` means no interrupts, as `_build_graph` passes `None`). The
fuel argument bounds the number of super-steps. -/
def runUntil (env : Env) (int : Option (List String)) : Nat → Config → Config
  | 0, c => c
  | Nat.succ f, c =>
    match c with
    | (s, none) => (s, none)
    | (s, some n) =>
      let s' := runNode env n s
      if nodeName n ∈ int.getD [] then (s', nextNode n s')
      else runUntil env int f (s', nextNode n s')

/-- `_build_graph(interrupt_after)`: raise `ValueError` when the list is
non-empty and contains a name outside `builder.nodes.keys()`; otherwise
compile with `interrupt_after` (normalised to `None` when the list is
empty). The result is the compiled graph's interrupt configuration. -/
def build_graph (ia : List String) : Except String (Option (List String)) :=
  if !ia.isEmpty && ia.any (fun node => !validNodeNames.contains node) then
    Except.error ("Invalid node names in interrupt_after: " ++
      String.intercalate ", " ia)
  else if ia.isEmpty then Except.ok none
  else Except.ok (some ia)

/-- The `thread_config` dictionary `{"configurable": {"thread_id": session_id}}`. -/
structure ThreadConfig where
  thread_id : String
deriving DecidableEq, Repr

/-- The `initial_state` dictionary built by `create_session`. -/
def initialState (user_id essay_id : Int) (topic : String)
    (max_revisions : Int) (session_id : String) : AgentState :=
  { task := topic
    max_revisions := max_revisions
    revision_number := 0
    lnode := ""
    plan := ""
    draft := ""
    critique := ""
    content := []
    queries := []
    count := 0
    user_id := some user_id
    essay_id := some essay_id
    session_id := some session_id }

/-- `create_session`: generate a session id (the fresh uuid4 string is an
external input, passed here as `session_id`), rebuild the graph with the
caller's `interrupt_after` (propagating its `ValueError`), and return the
session id, the thread configuration and the initial state. -/
def create_session (user_id essay_id : Int) (topic : String)
    (max_revisions : Int) (interrupt_after : List String)
    (session_id : String) :
    Except String (String × ThreadConfig × AgentState) :=
  match build_graph interrupt_after with
  | Except.error e => Except.error e
  | Except.ok _ =>
    Except.ok (session_id, ⟨session_id⟩,
      initialState user_id essay_id topic max_revisions session_id)

/-- The keys of the `AgentState` dict, for the state-edit operation. -/
inductive FieldKey
  | task
  | lnode
  | plan
  | draft
  | critique
  | content
  | queries
  | revision_number
  | max_revisions
  | count
  | user_id
  | essay_id
  | session_id
deriving DecidableEq, Repr

/-- The Python value type stored under each key. -/
def FieldKey.type : FieldKey → Type
  | .task => String
  | .lnode => String
  | .plan => String
  | .draft => String
  | .critique => String
  | .content => List String
  | .queries => List String
  | .revision_number => Int
  | .max_revisions => Int
  | .count => Int
  | .user_id => Option Int
  | .essay_id => Option Int
  | .session_id => Option String

/-- Read the value stored under a key. -/
def getField : (k : FieldKey) → AgentState → k.type
  | .task, s => s.task
  | .lnode, s => s.lnode
  | .plan, s => s.plan
  | .draft, s => s.draft
  | .critique, s => s.critique
  | .content, s => s.content
  | .queries, s => s.queries
  | .revision_number, s => s.revision_number
  | .max_revisions, s => s.max_revisions
  | .count, s => s.count
  | .user_id, s => s.user_id
  | .essay_id, s => s.essay_id
  | .session_id, s => s.session_id

/-- The dict assignment `current_state.values[key] = value`. -/
def setField : (k : FieldKey) → AgentState → k.type → AgentState
  | .task, s, v => { s with task := v }
  | .lnode, s, v => { s with lnode := v }
  | .plan, s, v => { s with plan := v }
  | .draft, s, v => { s with draft := v }
  | .critique, s, v => { s with critique := v }
  | .content, s, v => { s with content := v }
  | .queries, s, v => { s with queries := v }
  | .revision_number, s, v => { s with revision_number := v }
  | .max_revisions, s, v => { s with max_revisions := v }
  | .count, s, v => { s with count := v }
  | .user_id, s, v => { s with user_id := v }
  | .essay_id, s, v => { s with essay_id := v }
  | .session_id, s, v => { s with session_id := v }

/-- `graph.update_state(thread_config, values, as_node=...)`: the supplied
full values dict is applied to the checkpoint through the channel
reducers — every key overwrites its channel except the additive `count`
channel, which adds the supplied value to the stored one. -/
def applyValuesUpdate (s : AgentState) (values : AgentState) : AgentState :=
  { values with count := s.count + values.count }

/-- `EnhancedEssayWriter.update_state`: read the checkpoint values, assign
`values[key] = value`, and hand the whole dict back to the engine's
`update_state` (the `as_node` tag only attributes the write and is not part
of the resulting values). -/
def update_state (k : FieldKey) (s : AgentState) (v : k.type) : AgentState :=
  applyValuesUpdate s (setField k s v)

/-- Checkpoint state as returned by `graph.get_state`: the values, the
tuple of pending next nodes (modelled as the optional next node), and the
metadata. -/
structure EngineState where
  values : AgentState
  next : Option Node
  metadata : String
deriving Repr

/-- The result dict of `EnhancedEssayWriter.run_step`; absent keys are
`none` (`error` is only present on failure, `response`/`metadata` only on
success). -/
structure StepResult where
  success : Bool
  response : Option AgentState
  error : Option String
  current_state : Option AgentState
  next_node : Option (Option Node)
  metadata : Option String
deriving Repr

/-- `run_step`: the engine outcome (the invoke response paired with the
checkpoint read by `get_state`, or the exception message) is turned into
the success dict, and any exception into
`{"success": False, "error": str(e), "current_state": None,
"next_node": None}`. -/
def run_step (engine : Except String (AgentState × EngineState)) : StepResult :=
  match engine with
  | Except.ok (resp, st) =>
    { success := true
      response := some resp
      error := none
      current_state := some st.values
      next_node := some st.next
      metadata := some st.metadata }
  | Except.error e =>
    { success := false
      response := none
      error := some e
      current_state := none
      next_node := none
      metadata := none }

/-- A concrete environment for witnesses and counterexamples. -/
def env0 : Env :=
  { planResponse := "p"
    writerResponse := "w"
    reflectionResponse := "r"
    planQueries := ["pq1"]
    critiqueQueries := ["cq1"]
    search := fun _ => ["snippet"] }

/-- A concrete state for witnesses and counterexamples. -/
def exampleState : AgentState :=
  { initialState 1 2 "topic" 2 "sid" with count := 1, queries := ["oldq"] }

/-- Claim C1: `should_continue` returns `END` if and only if
`revision_number > max_revisions`, returns `"reflect"` otherwise, and the
conditional edge out of `generate` is exactly `should_continue` evaluated
on the state after the generate step. -/
theorem should_continue_end_iff (s : AgentState) :
    (should_continue s = none ↔ s.revision_number > s.max_revisions)
    ∧ (should_continue s = some Node.reflect ↔
        ¬ s.revision_number > s.max_revisions)
    ∧ nextNode Node.generate s = should_continue s := by
  refine ⟨?_, ?_, rfl⟩ <;>
    · unfold should_continue
      by_cases h : s.revision_number > s.max_revisions <;> simp [h]

/-- Claim C2: the generate step maps `revision_number` to
`revision_number + 1` and every other step leaves it unchanged; hence
`revision_number` is monotonically non-decreasing across every step. -/
theorem revision_number_step (env : Env) (n : Node) (s : AgentState) :
    ((runNode env n s).revision_number =
      if n = Node.generate then s.revision_number + 1 else s.revision_number)
    ∧ s.revision_number ≤ (runNode env n s).revision_number := by
  cases n <;>
    simp [runNode, applyUpdate, plan_node, research_plan_node,
      generation_node, reflection_node, research_critique_node]

/-- Claim C3: `content` is append-only: every step extends the `content`
list of the starting state by a (possibly empty) suffix, removing and
reordering nothing. -/
theorem content_append_only (env : Env) (n : Node) (s : AgentState) :
    ∃ t, (runNode env n s).content = s.content ++ t := by
  cases n
  case planner => exact ⟨[], by simp [runNode, applyUpdate, plan_node]⟩
  case research_plan =>
    exact ⟨(env.planQueries.map env.search).flatten,
      by simp [runNode, applyUpdate, research_plan_node]⟩
  case generate => exact ⟨[], by simp [runNode, applyUpdate, generation_node]⟩
  case reflect => exact ⟨[], by simp [runNode, applyUpdate, reflection_node]⟩
  case research_critique =>
    exact ⟨(env.critiqueQueries.map env.search).flatten,
      by simp [runNode, applyUpdate, research_critique_node]⟩

/-- Claim C4, counterexample: updating the `plan` field (a key other than
`count`) through `update_state` changes `count` — the claim that all fields
other than the named key are unchanged (in particular `count`) is false on
the code, because the method hands the full values dict back through the
additive `count` reducer. Here `count` goes from 1 to 2. -/
theorem update_state_count_changes :
    FieldKey.plan ≠ FieldKey.count
    ∧ exampleState.count = 1
    ∧ (update_state FieldKey.plan exampleState "edited plan").count = 2 := by
  refine ⟨by decide, rfl, rfl⟩

/-- Claim C4, amended: `update_state` overwrites the named field with the
supplied value and leaves every field other than the key and `count`
unchanged; `count` itself is not preserved but doubled (old + old) whenever
the key is not `count`, because the full values dict is re-applied through
the additive `count` channel. -/
theorem update_state_frame (k : FieldKey) (s : AgentState) (v : k.type) :
    (∀ j : FieldKey, j ≠ k → j ≠ FieldKey.count →
      getField j (update_state k s v) = getField j s)
    ∧ (k ≠ FieldKey.count → getField k (update_state k s v) = v)
    ∧ (k ≠ FieldKey.count →
        (update_state k s v).count = s.count + s.count) := by
  refine ⟨?_, ?_, ?_⟩
  · intro j hjk hjc
    cases k <;> cases j <;>
      simp_all [getField, setField, update_state, applyValuesUpdate]
  · intro hk
    cases k <;>
      simp_all [getField, setField, update_state, applyValuesUpdate]
  · intro hk
    cases k <;>
      simp_all [getField, setField, update_state, applyValuesUpdate]

/-- Witness for the amended claim C4 at a concrete edit: updating `plan`
leaves `draft` unchanged and doubles `count`. -/
theorem update_state_frame_witness :
    getField FieldKey.draft (update_state FieldKey.plan exampleState "x")
      = getField FieldKey.draft exampleState
    ∧ (update_state FieldKey.plan exampleState "x").count
      = exampleState.count + exampleState.count :=
  ⟨(update_state_frame FieldKey.plan exampleState "x").1 FieldKey.draft
      (by decide) (by decide),
   (update_state_frame FieldKey.plan exampleState "x").2.2 (by decide)⟩

/-- Claim C5, counterexample: after a `research_critique` step the
`queries` field does not hold the queries generated by that step — the node
returns no `"queries"` key, so the field keeps its previous value. Here the
step generates `["cq1"]` but the state still holds `["oldq"]`. -/
theorem research_critique_queries_stale :
    env0.critiqueQueries = ["cq1"]
    ∧ (runNode env0 Node.research_critique exampleState).queries = ["oldq"]
    ∧ (runNode env0 Node.research_critique exampleState).queries
        ≠ env0.critiqueQueries := by
  refine ⟨rfl, rfl, by decide⟩

/-- Claim C5, amended: after a `research_plan` step the `queries` field
equals the queries generated by that step, while a `research_critique` step
leaves `queries` unchanged (so the field holds the queries last generated
by `research_plan`, not by `research_critique`). -/
theorem queries_after_research (env : Env) (s : AgentState) :
    (runNode env Node.research_plan s).queries = env.planQueries
    ∧ (runNode env Node.research_critique s).queries = s.queries := by
  constructor <;>
    simp [runNode, applyUpdate, research_plan_node, research_critique_node]

/-- Claim C6: the step relation is exactly the fixed five-node machine of
`_build_graph_structure`: entry is `planner`; `planner → research_plan`;
`research_plan → generate`; `generate →` the conditional (`END` when
`revision_number > max_revisions`, else `reflect`); `reflect →
research_critique`; `research_critique → generate`; and `nextNode` admits
no other transition. -/
theorem graph_structure_spec (s : AgentState) :
    entryPoint = Node.planner
    ∧ nextNode Node.planner s = some Node.research_plan
    ∧ nextNode Node.research_plan s = some Node.generate
    ∧ nextNode Node.reflect s = some Node.research_critique
    ∧ nextNode Node.research_critique s = some Node.generate
    ∧ nextNode Node.generate s =
        (if s.revision_number > s.max_revisions then none
         else some Node.reflect) :=
  ⟨rfl, rfl, rfl, rfl, rfl, rfl⟩

/-- Claim C7: the `task` field is immutable: no step changes it, and the
initial state of `create_session` sets it to the supplied topic. -/
theorem task_immutable (env : Env) (n : Node) (s : AgentState)
    (u e : Int) (topic : String) (mr : Int) (sid : String) :
    (runNode env n s).task = s.task
    ∧ (initialState u e topic mr sid).task = topic := by
  refine ⟨?_, rfl⟩
  cases n <;>
    simp [runNode, applyUpdate, plan_node, research_plan_node,
      generation_node, reflection_node, research_critique_node]

/-- Claim C8: `run_step` is a total function of the engine outcome: an
exception is caught and surfaced as `success = False` with the error
message and `current_state`/`next_node` set to `None`; a normal outcome
yields `success = True` with the response and the checkpoint state. -/
theorem run_step_boundary (engine : Except String (AgentState × EngineState)) :
    (∀ e, engine = Except.error e →
      run_step engine =
        { success := false, response := none, error := some e,
          current_state := none, next_node := none, metadata := none })
    ∧ (∀ v, engine = Except.ok v →
      run_step engine =
        { success := true, response := some v.1, error := none,
          current_state := some v.2.values, next_node := some v.2.next,
          metadata := some v.2.metadata }) := by
  constructor
  · intro e he
    subst he
    rfl
  · intro v hv
    subst hv
    rfl

/-- Witness for claim C8 at a concrete engine failure. -/
theorem run_step_boundary_witness :
    run_step (Except.error "model provider failed") =
      { success := false, response := none,
        error := some "model provider failed",
        current_state := none, next_node := none, metadata := none } :=
  (run_step_boundary (Except.error "model provider failed")).1
    "model provider failed" rfl

/-- Every (possibly interrupted) engine run stays on the orbit of the
uninterrupted super-step function: `runUntil` with fuel `f` equals some
number `k ≤ f` of iterations of `stepOnce`. -/
theorem runUntil_iterate (env : Env) (int : Option (List String)) :
    ∀ (f : Nat) (c : Config),
      ∃ k ≤ f, runUntil env int f c = (stepOnce env)^[k] c := by
  intro f
  induction f with
  | zero => exact fun c => ⟨0, Nat.le_refl 0, rfl⟩
  | succ f ih =>
    intro c
    obtain ⟨s, next⟩ := c
    cases next with
    | none => exact ⟨0, Nat.zero_le _, rfl⟩
    | some n =>
      by_cases h : nodeName n ∈ int.getD []
      · exact ⟨1, Nat.le_add_left 1 f, by simp [runUntil, stepOnce, h]⟩
      · obtain ⟨k, hk, heq⟩ := ih (stepOnce env (s, some n))
        refine ⟨k + 1, Nat.succ_le_succ hk, ?_⟩
        rw [Function.iterate_succ_apply]
        rw [show runUntil env int (f + 1) (s, some n)
            = runUntil env int f (stepOnce env (s, some n)) from by
          simp [runUntil, stepOnce, h]]
        exact heq

/-- Claim C9: when the node just executed is in the configured
`interrupt_after` list, the run halts right after that node, before the
pending next node executes (the invoke result is exactly one super-step);
and resuming from the paused configuration (invoking again with no input,
which re-enters at the stored pending node) reaches, for any fuel `g`, the
configuration `k + 1` uninterrupted super-steps from the original one for
some `k ≤ g` — the paused step is executed exactly once across the pause
and the resume, and the resume continues with the step after it. -/
theorem pause_resume (env : Env) (int : List String) (s : AgentState)
    (n : Node) (f : Nat) (h : nodeName n ∈ int) :
    runUntil env (some int) (f + 1) (s, some n) = stepOnce env (s, some n)
    ∧ ∀ g : Nat, ∃ k ≤ g,
        runUntil env (some int) g (stepOnce env (s, some n))
          = (stepOnce env)^[k + 1] (s, some n) := by
  constructor
  · simp [runUntil, stepOnce, h]
  · intro g
    obtain ⟨k, hk, heq⟩ :=
      runUntil_iterate env (some int) g (stepOnce env (s, some n))
    exact ⟨k, hk, by rw [heq, Function.iterate_succ_apply]⟩

/-- Witness for claim C9: pausing after `planner` on a fresh session halts
after exactly one super-step. -/
theorem pause_resume_witness :
    nodeName Node.planner ∈ ["planner"]
    ∧ runUntil env0 (some ["planner"]) 1
        (initialState 1 2 "topic" 2 "sid", some Node.planner)
      = stepOnce env0 (initialState 1 2 "topic" 2 "sid", some Node.planner) :=
  ⟨by decide,
   (pause_resume env0 ["planner"] (initialState 1 2 "topic" 2 "sid")
      Node.planner 0 (by decide)).1⟩

/-- Claim C10: `create_session` fails (the `ValueError` of `_build_graph`)
exactly when `interrupt_after` is non-empty and contains a name outside the
five node names; otherwise it returns the generated session id, a thread
configuration whose `thread_id` is that session id, and an initial state
with `revision_number = 0`, `count = 0`, empty `plan`, `draft`, `critique`
and `lnode` texts, and empty `content` and `queries` lists. -/
theorem create_session_spec (u e : Int) (topic : String) (mr : Int)
    (ia : List String) (sid : String) :
    ((∃ msg, create_session u e topic mr ia sid = Except.error msg) ↔
      (ia ≠ [] ∧ ∃ x ∈ ia, x ∉ validNodeNames))
    ∧ (∀ r, create_session u e topic mr ia sid = Except.ok r →
        r.1 = sid
        ∧ r.2.1.thread_id = sid
        ∧ r.2.2.revision_number = 0
        ∧ r.2.2.count = 0
        ∧ r.2.2.plan = ""
        ∧ r.2.2.draft = ""
        ∧ r.2.2.critique = ""
        ∧ r.2.2.lnode = ""
        ∧ r.2.2.content = []
        ∧ r.2.2.queries = []
        ∧ r.2.2.task = topic
        ∧ r.2.2.max_revisions = mr) := by
  have hiff : (!ia.isEmpty &&
      ia.any (fun node => !validNodeNames.contains node)) = true ↔
      (ia ≠ [] ∧ ∃ x ∈ ia, x ∉ validNodeNames) := by
    simp [List.isEmpty_iff]
  unfold create_session build_graph
  by_cases hbad :
      (!ia.isEmpty && ia.any (fun node => !validNodeNames.contains node)) = true
  · rw [if_pos hbad]
    refine ⟨⟨fun _ => hiff.mp hbad, fun _ => ⟨_, rfl⟩⟩, ?_⟩
    intro r hr
    cases hr
  · rw [if_neg hbad]
    by_cases hemp : ia.isEmpty = true
    · rw [if_pos hemp]
      refine ⟨?_, ?_⟩
      · constructor
        · intro ⟨msg, hmsg⟩
          cases hmsg
        · intro hgood
          exact absurd (hiff.mpr hgood) hbad
      · intro r hr
        cases hr
        exact ⟨rfl, rfl, rfl, rfl, rfl, rfl, rfl, rfl, rfl, rfl, rfl, rfl⟩
    · rw [if_neg hemp]
      refine ⟨?_, ?_⟩
      · constructor
        · intro ⟨msg, hmsg⟩
          cases hmsg
        · intro hgood
          exact absurd (hiff.mpr hgood) hbad
      · intro r hr
        cases hr
        exact ⟨rfl, rfl, rfl, rfl, rfl, rfl, rfl, rfl, rfl, rfl, rfl, rfl⟩

/-- Witness for claim C10: a session created with an empty
`interrupt_after` list succeeds and its initial state has the documented
shape. -/
theorem create_session_spec_witness :
    ("sid" : String) = "sid"
    ∧ (ThreadConfig.mk "sid").thread_id = "sid"
    ∧ (initialState 1 2 "topic" 3 "sid").revision_number = 0
    ∧ (initialState 1 2 "topic" 3 "sid").count = 0
    ∧ (initialState 1 2 "topic" 3 "sid").plan = ""
    ∧ (initialState 1 2 "topic" 3 "sid").draft = ""
    ∧ (initialState 1 2 "topic" 3 "sid").critique = ""
    ∧ (initialState 1 2 "topic" 3 "sid").lnode = ""
    ∧ (initialState 1 2 "topic" 3 "sid").content = []
    ∧ (initialState 1 2 "topic" 3 "sid").queries = []
    ∧ (initialState 1 2 "topic" 3 "sid").task = "topic"
    ∧ (initialState 1 2 "topic" 3 "sid").max_revisions = 3 :=
  (create_session_spec 1 2 "topic" 3 [] "sid").2
    ("sid", ThreadConfig.mk "sid", initialState 1 2 "topic" 3 "sid") rfl
